import Mathlib

/-!
Verification development for the session orchestration and context-injection
pipeline of the value-added prompt framework.

The Python sources are shallowly embedded as executable Lean definitions:

* `utils/chat_utils.py`   — `begin_chat`, `fetch_chat`, `add_message`, `parse_chat`
  over an explicit store value (`Store`), which models the contents of the named
  TinyDB file; the `db_name` argument of the Python functions selects that file
  and is therefore not repeated here.
* `utils/value_added_utils.py` — `SessionTimer`, patient history rendering,
  enhanced-input composition and validation, session metrics.  Wall-clock
  instants (`time.time()` floats) are modelled as rationals passed explicitly.
* `utils/openai_utils.py` — the JSON-retry utility `generate_json_custom_ai`.
  The remote model call (`generate_text`) is an external collaborator and is
  modelled as an oracle giving the text and token counts of each attempt;
  `json.loads` is a library routine and is modelled as an abstract parser
  parameter.  The embedding additionally returns the number of model calls
  made, which is the observable the retry claims are about.
* `value_added_framework.py` — the `ValueAddedFramework` orchestrator state and
  its operations, with the structured model call (`generate_structured_response`,
  an external collaborator) modelled as an oracle from the outbound message
  list to either an error or a structured result.
-/

/-- Python's whitespace test, as used by `str.strip()`. -/
def isWS (c : Char) : Bool := c.isWhitespace

/-- Drop trailing whitespace characters (the right half of Python `str.strip()`). -/
def stripR (l : List Char) : List Char :=
  (l.reverse.dropWhile isWS).reverse

/-- Model of Python `str.strip()` on the character list of a string. -/
def stripList (l : List Char) : List Char :=
  stripR (l.dropWhile isWS)

/-- Model of Python `str.strip()`. -/
def pyStrip (s : String) : String :=
  ⟨stripList s.data⟩

/-- Contiguous-occurrence test on character lists: Python's `pat in s`. -/
def listContains (s pat : List Char) : Bool :=
  if pat.isPrefixOf s then true
  else
    match s with
    | [] => false
    | _ :: t => listContains t pat

/-- Python's substring membership test `sub in s`. -/
def containsSub (s sub : String) : Bool :=
  listContains s.data sub.data

/-- Worker for the occurrence remover: `skip` counts characters of a match
already consumed and still to be discarded. -/
def removeGo (pat : List Char) : Nat → List Char → List Char
  | _, [] => []
  | k+1, _ :: t => removeGo pat k t
  | 0, c :: t =>
    if pat ≠ [] ∧ pat.isPrefixOf (c :: t) then removeGo pat (pat.length - 1) t
    else c :: removeGo pat 0 t

/-- Remove every occurrence of `pat` from a character list, scanning left to
right over non-overlapping matches: Python `s.replace(pat, "")`. -/
def removeAllList (pat : List Char) (s : List Char) : List Char :=
  removeGo pat 0 s

/-- Python `s.replace(pat, "")` on strings. -/
def removeAll (s pat : String) : String :=
  ⟨removeAllList pat.data s.data⟩

/-- Round half to even on an exact rational, modelling Python's `round(x)`
tie-breaking (binary floating point inexactness is abstracted away by working
over exact rationals). -/
def roundHalfEven (q : ℚ) : ℤ :=
  if q - ⌊q⌋ < 1/2 then ⌊q⌋
  else if 1/2 < q - ⌊q⌋ then ⌊q⌋ + 1
  else if ⌊q⌋ % 2 = 0 then ⌊q⌋ else ⌊q⌋ + 1

/-- Python `round(x, 2)` over exact rationals. -/
def pyRound2 (q : ℚ) : ℚ :=
  (roundHalfEven (q * 100) : ℚ) / 100

/-! ## Transcript store (`utils/chat_utils.py`)

A `Store` models the `chats` table of the TinyDB file: an ordered list of chat
documents, each holding an identifier and an ordered message list. -/

/-- One transcript entry, `{'role': ..., 'content': ...}`. -/
structure ChatMessage where
  role : String
  content : String
deriving DecidableEq, Repr

/-- One chat document, `{'id': ..., 'messages': [...]}`. -/
structure Chat where
  id : String
  messages : List ChatMessage
deriving DecidableEq, Repr

/-- The `chats` table of one named TinyDB database file. -/
abbrev Store := List Chat

/-- `begin_chat` (chat_utils.py, lines 16-42): insert a fresh chat document
with an empty message list and return its identifier.  The uuid produced by
the external library is passed in as `newId`. -/
def begin_chat (db : Store) (newId : String) : Store × String :=
  (db ++ [{ id := newId, messages := [] }], newId)

/-- `fetch_chat` (chat_utils.py, lines 45-68): first document whose `id`
matches, returning its message list, or `none` when no document matches. -/
def fetch_chat (db : Store) (chatId : String) : Option (List ChatMessage) :=
  (db.find? fun c => c.id == chatId).map Chat.messages

/-- `fetch_all` (chat_utils.py, lines 71-92): all chat identifiers. -/
def fetch_all (db : Store) : List String :=
  db.map Chat.id

/-- Outcome of `add_message`: the Python function raises `ValueError` on an
invalid role, returns `False` when the chat is not found, and returns `True`
after updating the store. -/
inductive AddResult where
  | invalidRole
  | chatNotFound
  | ok (db : Store)
deriving DecidableEq, Repr

/-- `add_message` (chat_utils.py, lines 95-134): validate the role against the
closed set, look the chat up, append the entry and write the updated message
list back to every document whose `id` matches (TinyDB `update` semantics). -/
def add_message (db : Store) (chatId : String) (role : String) (message : String) :
    AddResult :=
  if role ∈ (["user", "assistant", "system"] : List String) then
    match db.find? (fun c => c.id == chatId) with
    | none => .chatNotFound
    | some chat =>
      .ok (db.map fun c =>
        if c.id == chatId then
          { c with messages := chat.messages ++ [{ role := role, content := message }] }
        else c)
  else .invalidRole

/-- The orchestrator ignores `add_message`'s boolean result; its call sites use
only the literal roles `"user"`, `"assistant"` and `"system"`, so the
`invalidRole` branch (a raised `ValueError` in Python) is unreachable there. -/
def addIgnoringResult (db : Store) (chatId : String) (role : String)
    (message : String) : Store :=
  match add_message db chatId role message with
  | .ok db' => db'
  | _ => db

/-- The loop body of `parse_chat` (chat_utils.py, lines 159-167): format a
user or assistant entry, skip anything else. -/
def formatEntry (userReplacement : String) (assistantReplacement : String)
    (m : ChatMessage) : Option String :=
  if m.role = "user" then
    some ("*" ++ userReplacement ++ "*: " ++ m.content)
  else if m.role = "assistant" then
    some ("*" ++ assistantReplacement ++ "*: " ++ m.content)
  else none

/-- `parse_chat` (chat_utils.py, lines 137-172): `None` when the chat is
missing or its message list is empty (`if not messages`), otherwise the
user/assistant entries formatted and joined; entries with any other role are
skipped. -/
def parse_chat (db : Store) (chatId : String) (userReplacement : String)
    (assistantReplacement : String) : Option String :=
  match fetch_chat db chatId with
  | none => none
  | some messages =>
    if messages.isEmpty then none
    else
      some (String.intercalate (" |\n| ")
        (messages.filterMap (formatEntry userReplacement assistantReplacement)))

/-! ## Session timing (`utils/value_added_utils.py`, lines 15-82) -/

/-- `SessionTimer`: duration in seconds plus optional start/deadline instants.
Instants are rationals standing for `time.time()` values. -/
structure SessionTimer where
  sessionDuration : Nat
  startTime : Option ℚ
  endTime : Option ℚ
deriving DecidableEq, Repr

/-- `SessionTimer.__init__`: duration converted to seconds, both instants unset. -/
def SessionTimer.init (sessionDurationMinutes : Nat) : SessionTimer :=
  { sessionDuration := sessionDurationMinutes * 60, startTime := none, endTime := none }

/-- `SessionTimer.start_session`: record the start instant and the deadline. -/
def SessionTimer.start_session (t : SessionTimer) (now : ℚ) : SessionTimer :=
  { t with startTime := some now, endTime := some (now + t.sessionDuration) }

/-- `SessionTimer.get_time_left`: `(0, 0)` before start; otherwise
`max 0 (deadline - now)` split into whole minutes (`int(x // 60)`) and
remainder seconds (`int(x % 60)`).  `start_session` always sets both instants,
so the `getD 0` default for the deadline is never taken on reachable states
(Python would raise a `TypeError` there). -/
def SessionTimer.get_time_left (t : SessionTimer) (now : ℚ) : Int × Int :=
  match t.startTime with
  | none => (0, 0)
  | some _ =>
    let deadline := t.endTime.getD 0
    let timeLeft := max 0 (deadline - now)
    (⌊timeLeft / 60⌋, ⌊timeLeft - 60 * (⌊timeLeft / 60⌋ : ℚ)⌋)

/-- `SessionTimer.get_time_left_string`: the human-readable remaining time. -/
def SessionTimer.get_time_left_string (t : SessionTimer) (now : ℚ) : String :=
  let tl := t.get_time_left now
  toString tl.1 ++ " minutes and " ++ toString tl.2 ++ " seconds"

/-- `SessionTimer.is_session_active`: false before start, else `now < deadline`. -/
def SessionTimer.is_session_active (t : SessionTimer) (now : ℚ) : Bool :=
  match t.startTime with
  | none => false
  | some _ => decide (now < t.endTime.getD 0)

/-- `SessionTimer.get_elapsed_time`: `(0, 0)` before start; otherwise
`now - start` split with Python's `//` and `%` (both floor-based, and the
remainder of a positive modulus is non-negative, so `int()` is a floor). -/
def SessionTimer.get_elapsed_time (t : SessionTimer) (now : ℚ) : Int × Int :=
  match t.startTime with
  | none => (0, 0)
  | some st =>
    let elapsed := now - st
    (⌊elapsed / 60⌋, ⌊elapsed - 60 * (⌊elapsed / 60⌋ : ℚ)⌋)

/-! ## Patient profile (`utils/value_added_utils.py`, lines 85-157)

The Python code passes the profile around as a dictionary and reads every key
with `.get` and a default; the embedding uses a total record, so those
missing-key defaults are folded into the data. -/

/-- One prior-session summary inside the patient history. -/
structure PreviousSession where
  sessionNumber : Nat
  date : String
  keyTopics : List String
  notes : String
deriving DecidableEq, Repr

/-- The patient history record. -/
structure PatientHistory where
  patientId : String
  name : String
  age : Nat
  previousSessions : List PreviousSession
  diagnosis : String
  medications : List String
  therapyGoals : List String
  triggers : List String
  strengths : List String
deriving DecidableEq, Repr

/-- `get_default_patient_history` (value_added_utils.py, lines 85-120). -/
def get_default_patient_history : PatientHistory :=
  { patientId := "PAT001"
    name := "Alex Johnson"
    age := 28
    previousSessions :=
      [ { sessionNumber := 1
          date := "2024-06-18"
          keyTopics := ["work stress", "anxiety", "sleep issues"]
          notes := "Patient reports high stress levels at work, difficulty sleeping. Discussed coping mechanisms." }
      , { sessionNumber := 2
          date := "2024-06-11"
          keyTopics := ["relationship concerns", "communication"]
          notes := "Explored relationship dynamics with partner. Worked on communication strategies." } ]
    diagnosis := "Generalized Anxiety Disorder"
    medications := ["Sertraline 50mg daily"]
    therapyGoals :=
      [ "Reduce anxiety symptoms"
      , "Improve sleep quality"
      , "Develop healthy coping strategies"
      , "Enhance work-life balance" ]
    triggers := ["work deadlines", "conflict situations", "social gatherings"]
    strengths := ["intelligent", "motivated", "good insight", "supportive family"] }

/-- `format_patient_history` (value_added_utils.py, lines 123-157): the fixed
multi-section rendering, stripped at the end. -/
def format_patient_history (history : PatientHistory) : String :=
  let base :=
    "\nPatient: " ++ history.name ++ " (Age: " ++ toString history.age ++ ")\nDiagnosis: "
      ++ history.diagnosis ++ "\nCurrent Medications: "
      ++ String.intercalate (", ") history.medications
      ++ "\n\nTherapy Goals:\n"
      ++ String.intercalate ("\n") (history.therapyGoals.map fun goal => "- " ++ goal)
      ++ "\n\nKnown Triggers:\n" ++ String.intercalate (", ") history.triggers
      ++ "\n\nPatient Strengths:\n" ++ String.intercalate (", ") history.strengths
      ++ "\n\nPrevious Sessions Summary:\n"
  let withSessions := history.previousSessions.foldl
    (fun acc s =>
      acc ++ "\nSession " ++ toString s.sessionNumber ++ " (" ++ s.date ++ "):\n- Topics: "
        ++ String.intercalate (", ") s.keyTopics ++ "\n- Notes: " ++ s.notes ++ "\n")
    base
  pyStrip withSessions

/-! ## Prompt composition and validation (`utils/value_added_utils.py`, lines 160-283) -/

/-- `create_enhanced_user_input` (value_added_utils.py, lines 160-191): the
four labelled brace-delimited fields in fixed order, stripped. -/
def create_enhanced_user_input (latestMessage : String) (timer : SessionTimer)
    (now : ℚ) (currentSession : Nat) (patientHistory : PatientHistory) : String :=
  let timeLeft := timer.get_time_left_string now
  let formattedHistory := format_patient_history patientHistory
  pyStrip
    ("\nLatest_Patient_Message: \x7b" ++ latestMessage
      ++ "\x7d;\n\nTime_Left_In_Session: \x7b" ++ timeLeft
      ++ "\x7d;\n\nCurrent_Session: \x7bSession " ++ toString currentSession
      ++ "\x7d;\n\nPatient_History: \x7b" ++ formattedHistory
      ++ "\x7d;\n")

/-- `get_system_prompt` (value_added_utils.py, lines 194-226): a fixed
instruction block. -/
def get_system_prompt : String :=
  "You are a psychology bot. You are currently in session with the patient.\n\nYou will receive enhanced user input that includes:\n- Latest_Patient_Message: The patient's current message\n- Time_Left_In_Session: How much time remains in the current session\n- Current_Session: Which session number this is\n- Patient_History: Complete patient background and previous session notes\n\nInstructions:\n1. Always respond as a professional, empathetic psychologist\n2. Be aware of the time remaining and adjust your responses accordingly\n3. Reference previous sessions and patient history when relevant\n4. If time is running low (under 5 minutes), start preparing for session closure\n5. Maintain professional boundaries and therapeutic rapport\n6. Use evidence-based therapeutic techniques when appropriate\n\nYou MUST respond in JSON format with exactly this structure:\n\x7b\n    \"response\": \"Your therapeutic response to the patient here\",\n    \"psychiatrist_thoughts\": \"Your internal clinical thoughts and observations here\"\n\x7d\n\nThe 'response' field should contain what you would say directly to the patient.\nThe 'psychiatrist_thoughts' field should contain your clinical observations, treatment planning thoughts, and session notes that the patient would not see.\n\nAdapt your therapeutic approach based on the time remaining in the session and the patient's presenting concerns."

/-- `create_session_start_message` (value_added_utils.py, lines 229-239). -/
def create_session_start_message : ChatMessage :=
  { role := "user", content := "The User is just entering the chat." }

/-- The four required labels of `validate_enhanced_input`. -/
def requiredComponents : List String :=
  ["Latest_Patient_Message:", "Time_Left_In_Session:", "Current_Session:", "Patient_History:"]

/-- `validate_enhanced_input` (value_added_utils.py, lines 242-259): substring
presence of all four labels. -/
def validate_enhanced_input (enhancedInput : String) : Bool :=
  requiredComponents.all fun component => containsSub enhancedInput component

/-- The metrics dictionary of `extract_session_metrics`. -/
structure SessionMetrics where
  sessionActive : Bool
  elapsedMinutes : Int
  elapsedSeconds : Int
  remainingMinutes : Int
  remainingSeconds : Int
  totalDurationMinutes : Nat
  completionPercentage : ℚ
deriving DecidableEq, Repr

/-- `extract_session_metrics` (value_added_utils.py, lines 262-283):
`completion_percentage = round((elapsed_m * 60 + elapsed_s) / duration * 100, 2)`,
with no clamping.  A zero duration would raise `ZeroDivisionError` in Python;
the claims about this function assume a positive duration. -/
def extract_session_metrics (timer : SessionTimer) (now : ℚ) : SessionMetrics :=
  let elapsed := timer.get_elapsed_time now
  let remaining := timer.get_time_left now
  { sessionActive := timer.is_session_active now
    elapsedMinutes := elapsed.1
    elapsedSeconds := elapsed.2
    remainingMinutes := remaining.1
    remainingSeconds := remaining.2
    totalDurationMinutes := timer.sessionDuration / 60
    completionPercentage :=
      pyRound2 (((elapsed.1 * 60 + elapsed.2 : Int) : ℚ) / (timer.sessionDuration : ℚ) * 100) }

/-! ## Structured model call results (`utils/openai_utils.py`, lines 87-143)

`generate_structured_response` is an external collaborator (the hosted model
API); the orchestrator sees either a raised error or the returned dictionary. -/

/-- `PsychologistResponse` (openai_utils.py, lines 87-90). -/
structure PsychologistResponse where
  response : String
  psychiatristThoughts : String
deriving DecidableEq, Repr

/-- The dictionary returned by a successful `generate_structured_response`. -/
structure StructuredCallData where
  structuredOutput : PsychologistResponse
  usage : Nat
  inputTokens : Nat
  outputTokens : Nat
deriving DecidableEq, Repr

/-- The structured model call as an oracle: given the outbound message list it
either raises (`Except.error` with the error text) or returns the parsed data. -/
abbrev StructuredOracle := List ChatMessage → Except String StructuredCallData

/-! ## The orchestrator (`value_added_framework.py`) -/

/-- `FrameworkConfig` (value_added_framework.py, lines 40-47). -/
structure FrameworkConfig where
  model : String
  sessionDurationMinutes : Nat
  dbName : String
  maxRetries : Nat
  apiKey : Option String
deriving DecidableEq, Repr

/-- The default configuration values. -/
def defaultFrameworkConfig : FrameworkConfig :=
  { model := "gpt-4o-mini"
    sessionDurationMinutes := 50
    dbName := "psychology_sessions"
    maxRetries := 3
    apiKey := none }

/-- The mutable state of a `ValueAddedFramework` instance
(value_added_framework.py, lines 61-77). -/
structure ValueAddedFramework where
  config : FrameworkConfig
  timer : SessionTimer
  patientHistory : PatientHistory
  currentSession : Nat
  chatId : Option String
  sessionStarted : Bool
deriving DecidableEq, Repr

/-- `ValueAddedFramework.__init__`: timer from the configured duration, default
patient history, session counter 1, no chat, not started. -/
def ValueAddedFramework.init (config : FrameworkConfig) : ValueAddedFramework :=
  { config := config
    timer := SessionTimer.init config.sessionDurationMinutes
    patientHistory := get_default_patient_history
    currentSession := 1
    chatId := none
    sessionStarted := false }

/-- `start_session` (value_added_framework.py, lines 79-107): create the chat,
start the timer, flip `session_started`, then append the system prompt and the
synthetic opening user message.  The uuid from the persistence collaborator is
passed in as `newId`, and the wall-clock instant as `now`. -/
def ValueAddedFramework.start_session (fw : ValueAddedFramework) (db : Store)
    (now : ℚ) (newId : String) : ValueAddedFramework × Store × String :=
  let created := begin_chat db newId
  let fw' := { fw with
    chatId := some created.2
    timer := fw.timer.start_session now
    sessionStarted := true }
  let db1 := addIgnoringResult created.1 created.2 ("system") get_system_prompt
  let db2 := addIgnoringResult db1 created.2 ("user") create_session_start_message.content
  (fw', db2, created.2)

/-- `update_patient_history` (value_added_framework.py, lines 109-117). -/
def ValueAddedFramework.update_patient_history (fw : ValueAddedFramework)
    (newHistory : PatientHistory) : ValueAddedFramework :=
  { fw with patientHistory := newHistory }

/-- `set_current_session` (value_added_framework.py, lines 119-127). -/
def ValueAddedFramework.set_current_session (fw : ValueAddedFramework)
    (sessionNumber : Nat) : ValueAddedFramework :=
  { fw with currentSession := sessionNumber }

/-- The errors `process_user_message` can surface: the session-not-active
guard, the defensive enhanced-input validation, or a propagated model-call
failure. -/
inductive ProcessError where
  | sessionNotActive
  | enhancementInvalid
  | modelError (e : String)
deriving DecidableEq, Repr

/-- The per-turn result dictionary built by `process_user_message`
(value_added_framework.py, lines 190-203). -/
structure TurnResult where
  patientResponse : String
  psychiatristThoughts : String
  sessionMetrics : SessionMetrics
  timeLeft : String
  sessionActive : Bool
  currentSession : Nat
  inputTokens : Nat
  outputTokens : Nat
  totalTokens : Nat
deriving DecidableEq, Repr

/-- The message list sent to the model by `process_user_message`
(value_added_framework.py, lines 155-170): the fetched transcript (or `[]`)
followed by the enhanced payload as the newest user turn. -/
def ValueAddedFramework.outbound_messages (fw : ValueAddedFramework) (db : Store)
    (now : ℚ) (userMessage : String) : List ChatMessage :=
  let enhancedInput :=
    create_enhanced_user_input userMessage fw.timer now fw.currentSession fw.patientHistory
  ((fetch_chat db (fw.chatId.getD "")).getD [])
    ++ [{ role := "user", content := enhancedInput }]

/-- `process_user_message` (value_added_framework.py, lines 129-210): guard on
`session_started`, compose and defensively validate the enhanced payload, send
the transcript plus enhanced turn to the structured model call, and only after
a successful structured result append the raw user message and the assistant
reply to the transcript.  Returns the store as left by the call together with
the outcome; on any failure the store is returned as it was. -/
def ValueAddedFramework.process_user_message (fw : ValueAddedFramework)
    (db : Store) (now : ℚ) (oracle : StructuredOracle) (userMessage : String) :
    Store × Except ProcessError TurnResult :=
  if fw.sessionStarted = false then
    (db, .error .sessionNotActive)
  else
    let enhancedInput :=
      create_enhanced_user_input userMessage fw.timer now fw.currentSession fw.patientHistory
    if validate_enhanced_input enhancedInput = false then
      (db, .error .enhancementInvalid)
    else
      match oracle (fw.outbound_messages db now userMessage) with
      | .error e => (db, .error (.modelError e))
      | .ok data =>
        let cid := fw.chatId.getD ""
        let db1 := addIgnoringResult db cid ("user") userMessage
        let db2 := addIgnoringResult db1 cid ("assistant") data.structuredOutput.response
        (db2, .ok
          { patientResponse := data.structuredOutput.response
            psychiatristThoughts := data.structuredOutput.psychiatristThoughts
            sessionMetrics := extract_session_metrics fw.timer now
            timeLeft := fw.timer.get_time_left_string now
            sessionActive := fw.timer.is_session_active now
            currentSession := fw.currentSession
            inputTokens := data.inputTokens
            outputTokens := data.outputTokens
            totalTokens := data.usage })

/-- The summary dictionary of `get_session_summary`
(value_added_framework.py, lines 212-236). -/
structure SessionSummary where
  chatId : Option String
  sessionNumber : Nat
  sessionMetrics : SessionMetrics
  userCount : Nat
  assistantCount : Nat
  totalCount : Nat
  sessionDurationMinutes : Nat
  patientName : String
deriving DecidableEq, Repr

/-- `get_session_summary` (value_added_framework.py, lines 212-236): counts
taken from the currently fetched transcript (or `[]`). -/
def ValueAddedFramework.get_session_summary (fw : ValueAddedFramework)
    (db : Store) (now : ℚ) : SessionSummary :=
  let chatMessages := (fetch_chat db (fw.chatId.getD "")).getD []
  { chatId := fw.chatId
    sessionNumber := fw.currentSession
    sessionMetrics := extract_session_metrics fw.timer now
    userCount := (chatMessages.filter fun m => m.role = "user").length
    assistantCount := (chatMessages.filter fun m => m.role = "assistant").length
    totalCount := chatMessages.length
    sessionDurationMinutes := fw.config.sessionDurationMinutes
    patientName := fw.patientHistory.name }

/-- The closing system entry appended by `end_session`. -/
def ValueAddedFramework.end_message (fw : ValueAddedFramework) : String :=
  "Session " ++ toString fw.currentSession ++ " ended. Duration: "
    ++ toString fw.config.sessionDurationMinutes ++ " minutes."

/-- `end_session` (value_added_framework.py, lines 238-255): take the summary
first, then append the closing system entry (when a chat id is held), then
clear `session_started`. -/
def ValueAddedFramework.end_session (fw : ValueAddedFramework) (db : Store)
    (now : ℚ) : ValueAddedFramework × Store × SessionSummary :=
  let summary := fw.get_session_summary db now
  let db' :=
    match fw.chatId with
    | some cid => addIgnoringResult db cid ("system") fw.end_message
    | none => db
  ({ fw with sessionStarted := false }, db', summary)

/-! ## JSON-retry utility (`utils/openai_utils.py`, lines 146-228) -/

/-- The dictionary returned by the external `generate_text` call
(openai_utils.py, lines 48-84): text plus token counts. -/
structure GenTextResult where
  text : String
  usage : Nat
  inputTokens : Nat
  outputTokens : Nat
deriving DecidableEq, Repr

/-- One system-prompt template of the caller-supplied template list; the
Python code reads `message` and `model` with `.get` defaults, folded into the
record. -/
structure SystemPrompt where
  id : Int
  message : String
  model : String
deriving DecidableEq, Repr

/-- The outcomes of `generate_json_custom_ai`: template lookup failure, an
empty text reply, retry-budget exhaustion, or the parsed JSON with the token
fields of the successful attempt. -/
inductive JsonRetryResult (J : Type) where
  | templateNotFound
  | noText
  | retryExhausted
  | ok (output : J) (promptTokens : Nat) (completionTokens : Nat) (usage : Nat)
      (model : String)
deriving DecidableEq, Repr

/-- The code-fence cleanup of openai_utils.py line 208:
`text.replace("```json", "").replace("```", "")`. -/
def clean_reply (text : String) : String :=
  removeAll (removeAll text ("```json")) ("```")

/-- `generate_json_custom_ai` (openai_utils.py, lines 165-228): look the
template up by id, issue a fresh model call per attempt (the oracle gives the
reply to attempt number `retryCount`), strip code fences, parse, and recurse
with `retryCount + 1` while `retryCount < 5`, failing after the sixth failed
parse.  `parseJson` models `json.loads` wrapped by `parse_json` (lines
146-162); the second component counts the model calls made. -/
def generate_json_custom_ai {J : Type} (message : String) (promptId : Int)
    (systemPrompts : List SystemPrompt) (oracle : Nat → GenTextResult)
    (parseJson : String → Option J) (retryCount : Nat) :
    JsonRetryResult J × Nat :=
  match systemPrompts.find? (fun p => p.id == promptId) with
  | none => (.templateNotFound, 0)
  | some prompt =>
    let response := oracle retryCount
    if response.text = "" then (.noText, 1)
    else
      let cleanedResponse := clean_reply response.text
      match parseJson cleanedResponse with
      | some parsed =>
        (.ok parsed response.inputTokens response.outputTokens response.usage
          prompt.model, 1)
      | none =>
        if h : retryCount < 5 then
          let rec' := generate_json_custom_ai message promptId systemPrompts
            oracle parseJson (retryCount + 1)
          (rec'.1, rec'.2 + 1)
        else (.retryExhausted, 1)
termination_by 6 - retryCount
decreasing_by omega

/-! ## Store lemmas -/

/-- When a chat is found and every matching document gets the appended message
list written back, a subsequent fetch of that id sees the appended list. -/
theorem fetch_chat_after_update (db : Store) (cid : String) (chat : Chat)
    (e : ChatMessage)
    (h : db.find? (fun c => c.id == cid) = some chat) :
    fetch_chat
      (db.map fun c =>
        if c.id == cid then { c with messages := chat.messages ++ [e] } else c)
      cid = some (chat.messages ++ [e]) := by
  induction db with
  | nil => simp [List.find?] at h
  | cons c t ih =>
    cases hc : (c.id == cid) with
    | true =>
      rw [List.find?_cons_of_pos (p := fun x : Chat => x.id == cid) (a := c) _ hc] at h
      have hceq : c = chat := by injection h
      subst hceq
      unfold fetch_chat
      simp only [List.map_cons]
      rw [if_pos hc]
      rw [List.find?_cons_of_pos (p := fun x : Chat => x.id == cid)
        (a := { id := c.id, messages := c.messages ++ [e] }) _ hc]
      rfl
    | false =>
      rw [List.find?_cons_of_neg (p := fun x : Chat => x.id == cid) (a := c) _
        (by simp [hc])] at h
      have ih' := ih h
      unfold fetch_chat at ih' ⊢
      simp only [List.map_cons]
      rw [if_neg (by simp [hc])]
      rw [List.find?_cons_of_neg (p := fun x : Chat => x.id == cid) (a := c) _
        (by simp [hc])]
      exact ih'

/-- C7: `add_message` validates the role against the closed set
`{system, user, assistant}` and fails with the invalid-role outcome
otherwise; with an identifier unknown to the store it fails with the
not-found outcome; otherwise it appends the entry at the end of the
session's message sequence. -/
theorem claim_add_message_validation (db : Store) (cid : String) (role : String)
    (content : String) :
    (role ∉ (["user", "assistant", "system"] : List String) →
      add_message db cid role content = .invalidRole) ∧
    (role ∈ (["user", "assistant", "system"] : List String) →
      db.find? (fun c => c.id == cid) = none →
      add_message db cid role content = .chatNotFound) ∧
    (∀ chat : Chat, role ∈ (["user", "assistant", "system"] : List String) →
      db.find? (fun c => c.id == cid) = some chat →
      add_message db cid role content =
        .ok (db.map fun c =>
          if c.id == cid then
            { c with messages := chat.messages ++ [{ role := role, content := content }] }
          else c) ∧
      fetch_chat
        (db.map fun c =>
          if c.id == cid then
            { c with messages := chat.messages ++ [{ role := role, content := content }] }
          else c) cid
        = some (chat.messages ++ [{ role := role, content := content }])) := by
  refine ⟨fun hrole => ?_, fun hrole hfind => ?_, fun chat hrole hfind => ?_⟩
  · simp [add_message, hrole]
  · simp [add_message, hrole, hfind]
  · exact ⟨by simp [add_message, hrole, hfind],
      fetch_chat_after_update db cid chat _ hfind⟩

/-- Witness for C7 at concrete inputs: an invalid role is rejected, an unknown
identifier is reported not-found, and a valid append lands at the end. -/
theorem claim_add_message_validation_witness :
    add_message [{ id := "c1", messages := [] }] "c1" "bot" "x" = .invalidRole ∧
    add_message [{ id := "c1", messages := [] }] "c2" "user" "x" = .chatNotFound ∧
    add_message [{ id := "c1", messages := [{ role := "user", content := "a" }] }]
        "c1" "user" "b" =
      .ok [{ id := "c1",
             messages := [{ role := "user", content := "a" },
                          { role := "user", content := "b" }] }] ∧
    fetch_chat [{ id := "c1",
                  messages := [{ role := "user", content := "a" },
                               { role := "user", content := "b" }] }] "c1" =
      some [{ role := "user", content := "a" }, { role := "user", content := "b" }] := by
  have h1 := (claim_add_message_validation [{ id := "c1", messages := [] }]
    "c1" "bot" "x").1 (by decide)
  have h2 := (claim_add_message_validation [{ id := "c1", messages := [] }]
    "c2" "user" "x").2.1 (by decide) (by decide)
  have h3 := (claim_add_message_validation
    [{ id := "c1", messages := [{ role := "user", content := "a" }] }]
    "c1" "user" "b").2.2 { id := "c1", messages := [{ role := "user", content := "a" }] }
    (by decide) (by decide)
  exact ⟨h1, h2, by simpa using h3.1, by simpa using h3.2⟩

/-- C10: the render operation returns the not-found result both for an unknown
identifier and for an existing session whose message sequence is empty; at
this interface the two are indistinguishable. -/
theorem claim_render_empty_indistinguishable (db : Store) (cid : String)
    (userReplacement : String) (assistantReplacement : String) :
    parse_chat db cid userReplacement assistantReplacement = none ↔
      (fetch_chat db cid = none ∨ fetch_chat db cid = some []) := by
  unfold parse_chat
  cases h : fetch_chat db cid with
  | none => simp
  | some ms =>
    cases ms with
    | nil => simp
    | cons x t => simp

/-! ## Render round trip (C6) -/

/-- The transcript fragment holding `n` user/assistant turn pairs. -/
def pairMessages (ps : List (String × String)) : List ChatMessage :=
  ps.flatMap fun p =>
    [{ role := "user", content := p.1 }, { role := "assistant", content := p.2 }]

/-- System-role entries contribute nothing to the formatted rendering. -/
theorem filterMap_formatEntry_system (u a : String) (sys : List ChatMessage)
    (hsys : ∀ m ∈ sys, m.role = "system") :
    sys.filterMap (formatEntry u a) = [] := by
  induction sys with
  | nil => rfl
  | cons m t ih =>
    have hm := hsys m (List.mem_cons_self m t)
    have ht := ih fun x hx => hsys x (List.mem_cons_of_mem m hx)
    simp [formatEntry, hm, ht]

/-- Formatting the pair fragment yields exactly the labelled pairs in order. -/
theorem filterMap_formatEntry_pairs (u a : String) (ps : List (String × String)) :
    (pairMessages ps).filterMap (formatEntry u a) =
      ps.flatMap fun p => ["*" ++ u ++ "*: " ++ p.1, "*" ++ a ++ "*: " ++ p.2] := by
  induction ps with
  | nil => rfl
  | cons p t ih =>
    simp only [pairMessages, List.flatMap_cons, List.cons_append, List.filterMap_cons]
    simp only [pairMessages] at ih
    simp [formatEntry, ih]

/-- C6: rendering a transcript made of system entries followed by `n`
user/assistant turn pairs with the labels `Patient` and `Therapist` yields
exactly those `n` pairs, each entry formatted as `*label*: content`, joined by
the literal delimiter `" |\n| "`, with the system entries absent. -/
theorem claim_render_round_trip (db : Store) (cid : String)
    (sys : List ChatMessage) (ps : List (String × String))
    (hsys : ∀ m ∈ sys, m.role = "system") (hps : ps ≠ [])
    (hm : fetch_chat db cid = some (sys ++ pairMessages ps)) :
    parse_chat db cid ("Patient") ("Therapist") =
      some (String.intercalate (" |\n| ")
        (ps.flatMap fun p => ["*Patient*: " ++ p.1, "*Therapist*: " ++ p.2])) := by
  have hne : (sys ++ pairMessages ps).isEmpty = false := by
    cases ps with
    | nil => exact absurd rfl hps
    | cons p t => simp [pairMessages]
  simp only [parse_chat, hm]
  rw [if_neg (by simp [hne])]
  rw [List.filterMap_append]
  rw [filterMap_formatEntry_system _ _ sys hsys]
  rw [filterMap_formatEntry_pairs]
  rw [List.nil_append]
  have h1 : ("*" ++ "Patient" ++ "*: " : String) = "*Patient*: " := by decide
  have h2 : ("*" ++ "Therapist" ++ "*: " : String) = "*Therapist*: " := by decide
  rw [h1, h2]

/-- Witness for C6: one system entry plus two turn pairs render to the two
formatted pairs joined by the delimiter. -/
theorem claim_render_round_trip_witness :
    parse_chat
      [{ id := "c1",
         messages := [{ role := "system", content := "instructions" },
                      { role := "user", content := "hi" },
                      { role := "assistant", content := "hello" },
                      { role := "user", content := "how" },
                      { role := "assistant", content := "fine" }] }]
      "c1" ("Patient") ("Therapist") =
      some ("*Patient*: hi |\n| *Therapist*: hello |\n| *Patient*: how |\n| *Therapist*: fine") := by
  have h := claim_render_round_trip
    [{ id := "c1",
       messages := [{ role := "system", content := "instructions" },
                    { role := "user", content := "hi" },
                    { role := "assistant", content := "hello" },
                    { role := "user", content := "how" },
                    { role := "assistant", content := "fine" }] }]
    "c1" [{ role := "system", content := "instructions" }]
    [("hi", "hello"), ("how", "fine")]
    (by decide) (by decide) (by decide)
  simpa using h

/-! ## Session-not-active guard (C2) -/

/-- With `session_started` false the guard at the top of `process_user_message`
fires before anything else: the result is the session-not-active error, with
the store untouched. -/
theorem process_not_started (fw : ValueAddedFramework) (db : Store) (now : ℚ)
    (oracle : StructuredOracle) (userMessage : String)
    (h : fw.sessionStarted = false) :
    fw.process_user_message db now oracle userMessage =
      (db, .error .sessionNotActive) := by
  simp [ValueAddedFramework.process_user_message, h]

/-- C2: on an orchestrator in the NotStarted or Ended state — both are exactly
the states with `session_started` false, since `end_session` clears the flag —
`process_message` fails with the session-not-active error and performs no
transcript mutation (the store is returned unchanged). -/
theorem claim_process_requires_active_session (fw : ValueAddedFramework)
    (db : Store) (now : ℚ) (oracle : StructuredOracle) (userMessage : String)
    (h : fw.sessionStarted = false) :
    fw.process_user_message db now oracle userMessage =
      (db, .error .sessionNotActive) ∧
    ∀ fw2 : ValueAddedFramework, ∀ db2 : Store, ∀ t2 : ℚ,
      ((fw2.end_session db2 t2).1).sessionStarted = false :=
  ⟨process_not_started fw db now oracle userMessage h, fun _ _ _ => rfl⟩

/-- Witness for C2: a freshly initialised (never started) orchestrator rejects
a message and leaves the empty store unchanged. -/
theorem claim_process_requires_active_session_witness :
    (ValueAddedFramework.init defaultFrameworkConfig).process_user_message []
        0 (fun _ => Except.error ("transport down")) "hi" =
      ([], .error .sessionNotActive) :=
  (claim_process_requires_active_session
    (ValueAddedFramework.init defaultFrameworkConfig) [] 0
    (fun _ => Except.error ("transport down")) "hi" rfl).1

/-! ## Substring occurrence lemmas (towards C4) -/

/-- `isPrefixOf` is existence of a completing suffix. -/
theorem isPrefixOf_iff_exists (l : List Char) : ∀ s : List Char,
    l.isPrefixOf s = true ↔ ∃ r, s = l ++ r := by
  induction l with
  | nil =>
    intro s
    simp [List.isPrefixOf]
  | cons c t ih =>
    intro s
    cases s with
    | nil => simp [List.isPrefixOf]
    | cons d u =>
      simp only [List.isPrefixOf, Bool.and_eq_true, beq_iff_eq, List.cons_append,
        List.cons.injEq]
      constructor
      · rintro ⟨rfl, h⟩
        obtain ⟨r, rfl⟩ := (ih u).mp h
        exact ⟨r, rfl, rfl⟩
      · rintro ⟨r, rfl, h⟩
        exact ⟨rfl, (ih u).mpr ⟨r, h⟩⟩

/-- `listContains` is existence of an occurrence split. -/
theorem listContains_iff (pat : List Char) : ∀ s : List Char,
    listContains s pat = true ↔ ∃ pre post, s = pre ++ (pat ++ post) := by
  intro s
  induction s with
  | nil =>
    rw [listContains]
    cases pat with
    | nil => simp
    | cons c t =>
      rw [if_neg (by simp [List.isPrefixOf])]
      simp
  | cons c u ih =>
    rw [listContains]
    by_cases hp : pat.isPrefixOf (c :: u) = true
    · rw [if_pos hp]
      obtain ⟨r, hr⟩ := (isPrefixOf_iff_exists pat (c :: u)).mp hp
      simp only [true_iff]
      exact ⟨[], r, by simpa using hr⟩
    · rw [if_neg hp]
      rw [ih]
      constructor
      · rintro ⟨pre, post, rfl⟩
        exact ⟨c :: pre, post, rfl⟩
      · rintro ⟨pre, post, h⟩
        cases pre with
        | nil =>
          exfalso
          exact hp ((isPrefixOf_iff_exists pat (c :: u)).mpr ⟨post, by simpa using h⟩)
        | cons d pr =>
          rw [List.cons_append] at h
          injection h with h1 h2
          exact ⟨pr, post, h2⟩

/-- An occurrence in the right part survives prepending. -/
theorem listContains_append_right (s t pat : List Char)
    (h : listContains t pat = true) : listContains (s ++ t) pat = true := by
  rw [listContains_iff] at h ⊢
  obtain ⟨pre, post, rfl⟩ := h
  exact ⟨s ++ pre, post, by simp⟩

/-- An occurrence in the left part survives appending. -/
theorem listContains_append_left (s t pat : List Char)
    (h : listContains s pat = true) : listContains (s ++ t) pat = true := by
  rw [listContains_iff] at h ⊢
  obtain ⟨pre, post, hh⟩ := h
  refine ⟨pre, post ++ t, ?_⟩
  rw [hh]
  simp

/-! ## Computing the strip of the enhanced payload -/

/-- Stripping ignores a leading whitespace character. -/
theorem stripList_cons_ws (c : Char) (l : List Char) (hc : isWS c = true) :
    stripList (c :: l) = stripList l := by
  unfold stripList
  rw [List.dropWhile_cons_of_pos hc]

/-- Stripping a list with a non-whitespace head only strips the right end. -/
theorem stripList_cons_not_ws (c : Char) (l : List Char) (hc : isWS c = false) :
    stripList (c :: l) = stripR (c :: l) := by
  unfold stripList
  rw [List.dropWhile_cons_of_neg (by simp [hc])]

/-- Right-stripping drops a trailing whitespace character. -/
theorem stripR_snoc_ws (l : List Char) (b : Char) (hb : isWS b = true) :
    stripR (l ++ [b]) = stripR l := by
  unfold stripR
  rw [List.reverse_append]
  simp only [List.reverse_cons, List.reverse_nil, List.nil_append,
    List.singleton_append]
  rw [List.dropWhile_cons_of_pos hb]

/-- Right-stripping keeps a list ending in a non-whitespace character. -/
theorem stripR_snoc_not_ws (l : List Char) (b : Char) (hb : isWS b = false) :
    stripR (l ++ [b]) = l ++ [b] := by
  unfold stripR
  rw [List.reverse_append]
  simp only [List.reverse_cons, List.reverse_nil, List.nil_append,
    List.singleton_append]
  rw [List.dropWhile_cons_of_neg (by simp [hb])]
  simp

/-- Unfolding helper for the string constructor. -/
theorem data_mk (l : List Char) : (String.mk l).data = l := rfl

/-- The character data of the enhanced payload: the outer newline padding is
stripped and nothing else, because the body starts with `L` and ends with a
semicolon. -/
theorem create_enhanced_data (m : String) (t : SessionTimer) (now : ℚ)
    (n : Nat) (h : PatientHistory) :
    (create_enhanced_user_input m t now n h).data =
      ("Latest_Patient_Message: \x7b" : String).data ++ m.data
        ++ ("\x7d;\n\nTime_Left_In_Session: \x7b" : String).data
        ++ (t.get_time_left_string now).data
        ++ ("\x7d;\n\nCurrent_Session: \x7bSession " : String).data
        ++ (toString n).data
        ++ ("\x7d;\n\nPatient_History: \x7b" : String).data
        ++ (format_patient_history h).data
        ++ ("\x7d;" : String).data := by
  unfold create_enhanced_user_input pyStrip
  rw [data_mk]
  simp only [String.data_append]
  have e3 : (['\x7d', ';', '\n'] : List Char) = ['\x7d', ';'] ++ ['\n'] := rfl
  have e4 : (['\x7d', ';'] : List Char) = ['\x7d'] ++ [';'] := rfl
  simp only [List.cons_append, List.nil_append]
  rw [stripList_cons_ws '\n' _ (by decide)]
  rw [stripList_cons_not_ws 'L' _ (by decide)]
  rw [e3, ← List.append_assoc]
  simp only [← List.cons_append]
  rw [stripR_snoc_ws _ '\n' (by decide)]
  rw [e4, ← List.append_assoc]
  rw [stripR_snoc_not_ws _ ';' (by decide)]

/-- The enhanced payload always passes the label-presence validator: every one
of the four labels occurs in one of the fixed literal segments, none of which
is touched by the strip. -/
theorem validate_enhanced_always (m : String) (t : SessionTimer) (now : ℚ)
    (n : Nat) (h : PatientHistory) :
    validate_enhanced_input (create_enhanced_user_input m t now n h) = true := by
  have hd := create_enhanced_data m t now n h
  unfold validate_enhanced_input requiredComponents containsSub
  simp only [List.all_cons, List.all_nil, Bool.and_true, Bool.and_eq_true]
  rw [hd]
  refine ⟨?_, ?_, ?_, ?_⟩
  · apply listContains_append_left
    apply listContains_append_left
    apply listContains_append_left
    apply listContains_append_left
    apply listContains_append_left
    apply listContains_append_left
    apply listContains_append_left
    apply listContains_append_left
    decide
  · apply listContains_append_left
    apply listContains_append_left
    apply listContains_append_left
    apply listContains_append_left
    apply listContains_append_left
    apply listContains_append_left
    apply listContains_append_right
    decide
  · apply listContains_append_left
    apply listContains_append_left
    apply listContains_append_left
    apply listContains_append_left
    apply listContains_append_right
    decide
  · apply listContains_append_left
    apply listContains_append_left
    apply listContains_append_right
    decide

/-- C4: for every raw message, clock state, session number and patient
profile, the enhanced payload contains all four required labels, the
validator accepts it, and the defensive `EnhancementInvalid` branch of
`process_user_message` can never be the outcome. -/
theorem claim_enhanced_input_always_valid (m : String) (t : SessionTimer)
    (now : ℚ) (n : Nat) (h : PatientHistory) (fw : ValueAddedFramework)
    (db : Store) (oracle : StructuredOracle) (raw : String) (t2 : ℚ) :
    (containsSub (create_enhanced_user_input m t now n h)
        ("Latest_Patient_Message:") = true ∧
      containsSub (create_enhanced_user_input m t now n h)
        ("Time_Left_In_Session:") = true ∧
      containsSub (create_enhanced_user_input m t now n h)
        ("Current_Session:") = true ∧
      containsSub (create_enhanced_user_input m t now n h)
        ("Patient_History:") = true) ∧
    validate_enhanced_input (create_enhanced_user_input m t now n h) = true ∧
    (fw.process_user_message db t2 oracle raw).2 ≠
      Except.error ProcessError.enhancementInvalid := by
  have hv := validate_enhanced_always m t now n h
  have hall : ∀ comp ∈ requiredComponents,
      containsSub (create_enhanced_user_input m t now n h) comp = true := by
    unfold validate_enhanced_input at hv
    exact List.all_eq_true.mp hv
  refine ⟨⟨hall _ (by decide), hall _ (by decide), hall _ (by decide),
    hall _ (by decide)⟩, hv, ?_⟩
  by_cases hs : fw.sessionStarted = false
  · simp [ValueAddedFramework.process_user_message, hs]
  · have hv2 := validate_enhanced_always raw fw.timer t2 fw.currentSession
      fw.patientHistory
    cases ho : oracle (fw.outbound_messages db t2 raw) with
    | error e =>
      simp [ValueAddedFramework.process_user_message, hs, hv2, ho]
    | ok d =>
      simp [ValueAddedFramework.process_user_message, hs, hv2, ho]

/-- C1: on an Active orchestrator, a raised structured model call leaves the
transcript untouched — the store comes back exactly as it went in — and the
two transcript appends (raw user message, assistant reply) happen only on the
success path, as the resulting store of a successful call shows. -/
theorem claim_model_failure_no_transcript_mutation (fw : ValueAddedFramework)
    (db : Store) (now : ℚ) (oracle : StructuredOracle) (userMessage : String)
    (h : fw.sessionStarted = true) :
    (∀ e, oracle (fw.outbound_messages db now userMessage) = .error e →
      fw.process_user_message db now oracle userMessage =
        (db, .error (.modelError e))) ∧
    (∀ d, oracle (fw.outbound_messages db now userMessage) = .ok d →
      fw.process_user_message db now oracle userMessage =
        (addIgnoringResult
          (addIgnoringResult db (fw.chatId.getD "") ("user") userMessage)
          (fw.chatId.getD "") ("assistant") d.structuredOutput.response,
         .ok
          { patientResponse := d.structuredOutput.response
            psychiatristThoughts := d.structuredOutput.psychiatristThoughts
            sessionMetrics := extract_session_metrics fw.timer now
            timeLeft := fw.timer.get_time_left_string now
            sessionActive := fw.timer.is_session_active now
            currentSession := fw.currentSession
            inputTokens := d.inputTokens
            outputTokens := d.outputTokens
            totalTokens := d.usage })) := by
  have hv := validate_enhanced_always userMessage fw.timer now fw.currentSession
    fw.patientHistory
  constructor
  · intro e ho
    simp [ValueAddedFramework.process_user_message, h, hv, ho]
  · intro d ho
    simp [ValueAddedFramework.process_user_message, h, hv, ho]

/-- Witness for C1: a started orchestrator whose model call raises gets the
store back unchanged together with the propagated model error. -/
theorem claim_model_failure_no_transcript_mutation_witness :
    ((ValueAddedFramework.init defaultFrameworkConfig).start_session [] 0
          "c1").1.process_user_message
        ((ValueAddedFramework.init defaultFrameworkConfig).start_session [] 0
          "c1").2.1 1 (fun _ => Except.error ("boom")) "hi" =
      (((ValueAddedFramework.init defaultFrameworkConfig).start_session [] 0
          "c1").2.1,
        Except.error (ProcessError.modelError "boom")) :=
  (claim_model_failure_no_transcript_mutation
    ((ValueAddedFramework.init defaultFrameworkConfig).start_session [] 0 "c1").1
    ((ValueAddedFramework.init defaultFrameworkConfig).start_session [] 0 "c1").2.1
    1 (fun _ => Except.error ("boom")) "hi" rfl).1 "boom" rfl

/-! ## Completion percentage (C5) -/

/-- Python's minute/second decomposition of an elapsed time recombines to the
floor of the elapsed seconds. -/
theorem floor_split (E : ℚ) :
    ⌊E / 60⌋ * 60 + ⌊E - 60 * (⌊E / 60⌋ : ℚ)⌋ = ⌊E⌋ := by
  have h : E - 60 * (⌊E / 60⌋ : ℚ) = E - ((60 * ⌊E / 60⌋ : ℤ) : ℚ) := by
    push_cast
    ring
  rw [h, Int.floor_sub_int]
  ring

/-- Rounding half to even never goes below the floor. -/
theorem roundHalfEven_ge_floor (q : ℚ) : ⌊q⌋ ≤ roundHalfEven q := by
  unfold roundHalfEven
  split_ifs <;> omega

/-- A quantity at least 100 stays at least 100 after two-decimal rounding. -/
theorem pyRound2_ge_100 (q : ℚ) (h : 100 ≤ q) : 100 ≤ pyRound2 q := by
  have h1 : (10000 : ℤ) ≤ ⌊q * 100⌋ := by
    rw [Int.le_floor]
    push_cast
    nlinarith
  have h2 : (10000 : ℤ) ≤ roundHalfEven (q * 100) :=
    le_trans h1 (roundHalfEven_ge_floor _)
  unfold pyRound2
  rw [le_div_iff₀ (by norm_num : (0:ℚ) < 100)]
  calc (100 : ℚ) * 100 = ((10000 : ℤ) : ℚ) := by norm_num
    _ ≤ ((roundHalfEven (q * 100)) : ℚ) := by exact_mod_cast h2

/-- C5: for a started timer of duration `D` seconds the reported
`completion_percentage` equals `round(floor(elapsed) / D * 100, 2)` with no
clamping, and in particular any elapsed time at least `D` reports at least
100. -/
theorem claim_completion_percentage_unclamped (t0 : SessionTimer)
    (st now : ℚ) (hd : 0 < t0.sessionDuration) :
    (extract_session_metrics (t0.start_session st) now).completionPercentage =
      pyRound2 ((⌊now - st⌋ : ℚ) / (t0.sessionDuration : ℚ) * 100) ∧
    ((t0.sessionDuration : ℚ) ≤ now - st →
      (100 : ℚ) ≤
        (extract_session_metrics (t0.start_session st) now).completionPercentage) := by
  have key := floor_split (now - st)
  have hmain :
      (extract_session_metrics (t0.start_session st) now).completionPercentage =
        pyRound2 ((⌊now - st⌋ : ℚ) / (t0.sessionDuration : ℚ) * 100) := by
    simp only [extract_session_metrics, SessionTimer.get_elapsed_time,
      SessionTimer.start_session]
    have keyQ : ((⌊(now - st) / 60⌋ : ℚ) * 60 +
        (⌊now - st - 60 * (⌊(now - st) / 60⌋ : ℚ)⌋ : ℚ)) = ((⌊now - st⌋ : ℚ)) := by
      exact_mod_cast key
    congr 1
    push_cast
    push_cast at keyQ
    linear_combination (100 / (t0.sessionDuration : ℚ)) * keyQ
  refine ⟨hmain, fun hle => ?_⟩
  rw [hmain]
  apply pyRound2_ge_100
  have hdpos : (0 : ℚ) < (t0.sessionDuration : ℚ) := by exact_mod_cast hd
  have h1 : (t0.sessionDuration : ℚ) ≤ (⌊now - st⌋ : ℚ) := by
    have : (t0.sessionDuration : ℤ) ≤ ⌊now - st⌋ := by
      rw [Int.le_floor]
      exact_mod_cast hle
    exact_mod_cast this
  have h2 : (1 : ℚ) ≤ (⌊now - st⌋ : ℚ) / (t0.sessionDuration : ℚ) :=
    (one_le_div hdpos).mpr h1
  nlinarith

/-- Witness for C5: a 60-second session inspected at elapsed 120 reports at
least 100 percent. -/
theorem claim_completion_percentage_unclamped_witness :
    (100 : ℚ) ≤
      (extract_session_metrics ((SessionTimer.init 1).start_session 0)
        120).completionPercentage :=
  (claim_completion_percentage_unclamped (SessionTimer.init 1) 0 120
    (by decide)).2 (by norm_num [SessionTimer.init])

/-! ## End-of-session summary ordering (C8) -/

/-- C8: `end_session` computes the returned summary from the transcript as it
stands before the closing system entry is appended — the closing entry is not
counted — and the store afterwards holds the old messages plus that closing
entry. -/
theorem claim_end_session_count_before_closing (fw : ValueAddedFramework)
    (db : Store) (now : ℚ) (cid : String) (chat : Chat)
    (hc : fw.chatId = some cid)
    (hm : db.find? (fun c => c.id == cid) = some chat) :
    (fw.end_session db now).2.2.totalCount = chat.messages.length ∧
    fetch_chat (fw.end_session db now).2.1 cid =
      some (chat.messages ++
        [{ role := "system", content := fw.end_message }]) := by
  have hfetch : fetch_chat db cid = some chat.messages := by
    unfold fetch_chat
    rw [hm]
    rfl
  constructor
  · simp [ValueAddedFramework.end_session,
      ValueAddedFramework.get_session_summary, hc, hfetch]
  · simp only [ValueAddedFramework.end_session, hc]
    have hadd : add_message db cid ("system") fw.end_message =
        .ok (db.map fun c =>
          if c.id == cid then
            { c with messages := chat.messages ++
                [{ role := "system", content := fw.end_message }] }
          else c) := by
      unfold add_message
      rw [if_pos (by decide)]
      rw [hm]
    unfold addIgnoringResult
    rw [hadd]
    exact fetch_chat_after_update db cid chat _ hm

/-- Witness for C8: a session holding one system entry and two user/assistant
pairs — the opening synthetic user turn paired with the first reply, then a
second pair — reports `total = 5`, the closing entry being appended only after
the count is taken. -/
theorem claim_end_session_count_before_closing_witness :
    ((((ValueAddedFramework.init defaultFrameworkConfig).start_session [] 0
          "c1").1).end_session
        [{ id := "c1",
           messages := [{ role := "system", content := "prompt" },
                        { role := "user",
                          content := "The User is just entering the chat." },
                        { role := "assistant", content := "hello" },
                        { role := "user", content := "hi" },
                        { role := "assistant", content := "tell me more" }] }]
        10).2.2.totalCount = 5 := by
  have h := claim_end_session_count_before_closing
    (((ValueAddedFramework.init defaultFrameworkConfig).start_session [] 0
      "c1").1)
    [{ id := "c1",
       messages := [{ role := "system", content := "prompt" },
                    { role := "user",
                      content := "The User is just entering the chat." },
                    { role := "assistant", content := "hello" },
                    { role := "user", content := "hi" },
                    { role := "assistant", content := "tell me more" }] }]
    10 "c1"
    { id := "c1",
      messages := [{ role := "system", content := "prompt" },
                   { role := "user",
                     content := "The User is just entering the chat." },
                   { role := "assistant", content := "hello" },
                   { role := "user", content := "hi" },
                   { role := "assistant", content := "tell me more" }] }
    rfl (by decide)
  simpa using h.1

/-! ## Retry budget of the JSON utility (C3) -/

/-- If every attempt from `r` through 5 yields unparsable text, the utility
exhausts its budget, making exactly `6 - r` calls. -/
theorem genJson_exhaust {J : Type} (msg : String) (pid : Int)
    (prompts : List SystemPrompt) (oracle : Nat → GenTextResult)
    (parse : String → Option J) (p : SystemPrompt)
    (hfind : prompts.find? (fun q => q.id == pid) = some p)
    (htext : ∀ i, i ≤ 5 → (oracle i).text ≠ "") :
    ∀ n r, 5 - r = n → r ≤ 5 →
    (∀ i, r ≤ i → i ≤ 5 → parse (clean_reply (oracle i).text) = none) →
    generate_json_custom_ai msg pid prompts oracle parse r =
      (.retryExhausted, 6 - r) := by
  intro n
  induction n with
  | zero =>
    intro r h5 hr hnone
    have hr5 : r = 5 := by omega
    subst hr5
    rw [generate_json_custom_ai, hfind]
    dsimp only
    rw [if_neg (htext 5 (by omega))]
    rw [hnone 5 (by omega) (by omega)]
    dsimp only
    rw [dif_neg (by omega)]
  | succ n ih =>
    intro r h5 hr hnone
    have hrlt : r < 5 := by omega
    rw [generate_json_custom_ai, hfind]
    dsimp only
    rw [if_neg (htext r (by omega))]
    rw [hnone r (by omega) (by omega)]
    dsimp only
    rw [dif_pos hrlt]
    rw [ih (r + 1) (by omega) (by omega)
      (fun i hi1 hi2 => hnone i (by omega) hi2)]
    simp only [Prod.mk.injEq]
    exact ⟨trivial, by omega⟩

/-- If attempts `r` through `k - 1` are unparsable and attempt `k` parses, the
utility returns that parse with the attempt's token counts after exactly
`k + 1 - r` calls. -/
theorem genJson_first {J : Type} (msg : String) (pid : Int)
    (prompts : List SystemPrompt) (oracle : Nat → GenTextResult)
    (parse : String → Option J) (p : SystemPrompt)
    (hfind : prompts.find? (fun q => q.id == pid) = some p)
    (htext : ∀ i, i ≤ 5 → (oracle i).text ≠ "") :
    ∀ n r, 5 - r = n → r ≤ 5 → ∀ k v, r ≤ k → k ≤ 5 →
    (∀ i, r ≤ i → i < k → parse (clean_reply (oracle i).text) = none) →
    parse (clean_reply (oracle k).text) = some v →
    generate_json_custom_ai msg pid prompts oracle parse r =
      (.ok v (oracle k).inputTokens (oracle k).outputTokens (oracle k).usage
        p.model, k + 1 - r) := by
  intro n
  induction n with
  | zero =>
    intro r h5 hr k v hrk hk5 hnone hsome
    have hr5 : r = 5 := by omega
    have hk5' : k = 5 := by omega
    subst hr5
    subst hk5'
    rw [generate_json_custom_ai, hfind]
    dsimp only
    rw [if_neg (htext 5 (by omega))]
    rw [hsome]
  | succ n ih =>
    intro r h5 hr k v hrk hk5 hnone hsome
    by_cases hkr : k = r
    · subst hkr
      rw [generate_json_custom_ai, hfind]
      dsimp only
      rw [if_neg (htext k (by omega))]
      rw [hsome]
      dsimp only
      simp only [Prod.mk.injEq]
      exact ⟨trivial, by omega⟩
    · have hrlt : r < 5 := by omega
      rw [generate_json_custom_ai, hfind]
      dsimp only
      rw [if_neg (htext r (by omega))]
      rw [hnone r (by omega) (by omega)]
      dsimp only
      rw [dif_pos hrlt]
      rw [ih (r + 1) (by omega) (by omega) k v (by omega) hk5
        (fun i hi1 hi2 => hnone i (by omega) hi2) hsome]
      simp only [Prod.mk.injEq]
      exact ⟨trivial, by omega⟩

/-- If the utility reports exhaustion from attempt `r`, every attempt from `r`
through 5 was unparsable. -/
theorem genJson_exhaust_inv {J : Type} (msg : String) (pid : Int)
    (prompts : List SystemPrompt) (oracle : Nat → GenTextResult)
    (parse : String → Option J) (p : SystemPrompt)
    (hfind : prompts.find? (fun q => q.id == pid) = some p)
    (htext : ∀ i, i ≤ 5 → (oracle i).text ≠ "") :
    ∀ n r, 5 - r = n → r ≤ 5 →
    (generate_json_custom_ai msg pid prompts oracle parse r).1 =
      .retryExhausted →
    ∀ i, r ≤ i → i ≤ 5 → parse (clean_reply (oracle i).text) = none := by
  intro n
  induction n with
  | zero =>
    intro r h5 hr hres i hi1 hi2
    have hr5 : r = 5 := by omega
    subst hr5
    have hi5 : i = 5 := by omega
    subst hi5
    cases hp : parse (clean_reply (oracle 5).text) with
    | none => rfl
    | some v =>
      rw [genJson_first msg pid prompts oracle parse p hfind htext 0 5 (by omega)
        (by omega) 5 v (by omega) (by omega) (fun j hj1 hj2 => by omega) hp] at hres
      exact absurd hres (by simp)
  | succ n ih =>
    intro r h5 hr hres i hi1 hi2
    cases hp : parse (clean_reply (oracle r).text) with
    | some v =>
      rw [genJson_first msg pid prompts oracle parse p hfind htext (n + 1) r h5
        hr r v (by omega) (by omega) (fun j hj1 hj2 => by omega) hp] at hres
      exact absurd hres (by simp)
    | none =>
      by_cases hir : i = r
      · subst hir
        exact hp
      · rw [generate_json_custom_ai, hfind] at hres
        dsimp only at hres
        rw [if_neg (htext r (by omega))] at hres
        rw [hp] at hres
        dsimp only at hres
        rw [dif_pos (by omega : r < 5)] at hres
        exact ih (r + 1) (by omega) (by omega) hres i (by omega) hi2

/-- The utility never makes more than `6 - r` model calls from attempt `r`. -/
theorem genJson_calls_le {J : Type} (msg : String) (pid : Int)
    (prompts : List SystemPrompt) (oracle : Nat → GenTextResult)
    (parse : String → Option J) :
    ∀ n r, 5 - r = n → r ≤ 5 →
    (generate_json_custom_ai msg pid prompts oracle parse r).2 ≤ 6 - r := by
  intro n
  induction n with
  | zero =>
    intro r h5 hr
    have hr5 : r = 5 := by omega
    subst hr5
    rw [generate_json_custom_ai]
    cases hq : prompts.find? (fun q => q.id == pid) with
    | none => simp
    | some p =>
      dsimp only
      by_cases ht : (oracle 5).text = ""
      · rw [if_pos ht]
      · rw [if_neg ht]
        cases hp : parse (clean_reply (oracle 5).text) with
        | some v => simp
        | none =>
          dsimp only
          rw [dif_neg (by omega)]
  | succ n ih =>
    intro r h5 hr
    rw [generate_json_custom_ai]
    cases hq : prompts.find? (fun q => q.id == pid) with
    | none => simp
    | some p =>
      dsimp only
      by_cases ht : (oracle r).text = ""
      · rw [if_pos ht]
        simp only
        omega
      · rw [if_neg ht]
        cases hp : parse (clean_reply (oracle r).text) with
        | some v =>
          dsimp only
          omega
        | none =>
          dsimp only
          rw [dif_pos (by omega : r < 5)]
          have hrec := ih (r + 1) (by omega) (by omega)
          dsimp only
          omega

/-- C3: starting from a fresh call (attempt 0) with a present template and
non-empty text replies, the JSON-retry utility makes at most 6 model calls; it
ends in retry exhaustion exactly when all 6 attempts yield unparsable text;
and if the first parseable attempt is attempt `k` (zero-based, so call number
`k + 1 ≤ 6`), it returns that parse and stops after exactly `k + 1` calls. -/
theorem claim_json_retry_budget {J : Type} (msg : String) (pid : Int)
    (prompts : List SystemPrompt) (oracle : Nat → GenTextResult)
    (parse : String → Option J) (p : SystemPrompt)
    (hfind : prompts.find? (fun q => q.id == pid) = some p)
    (htext : ∀ i, i ≤ 5 → (oracle i).text ≠ "") :
    (generate_json_custom_ai msg pid prompts oracle parse 0).2 ≤ 6 ∧
    ((generate_json_custom_ai msg pid prompts oracle parse 0).1 =
        .retryExhausted ↔
      ∀ i, i ≤ 5 → parse (clean_reply (oracle i).text) = none) ∧
    (∀ k v, k ≤ 5 →
      (∀ i, i < k → parse (clean_reply (oracle i).text) = none) →
      parse (clean_reply (oracle k).text) = some v →
      generate_json_custom_ai msg pid prompts oracle parse 0 =
        (.ok v (oracle k).inputTokens (oracle k).outputTokens (oracle k).usage
          p.model, k + 1)) := by
  refine ⟨?_, ⟨?_, ?_⟩, ?_⟩
  · have h := genJson_calls_le msg pid prompts oracle parse 5 0 rfl (by omega)
    simpa using h
  · intro hres i hi
    exact genJson_exhaust_inv msg pid prompts oracle parse p hfind htext 5 0
      rfl (by omega) hres i (by omega) hi
  · intro hall
    have h := genJson_exhaust msg pid prompts oracle parse p hfind htext 5 0
      rfl (by omega) (fun i h1 h2 => hall i h2)
    rw [h]
  · intro k v hk hnone hsome
    have h := genJson_first msg pid prompts oracle parse p hfind htext 5 0
      rfl (by omega) k v (by omega) hk (fun i h1 h2 => hnone i h2) hsome
    simpa using h

/-- Witness for C3: with a stub whose first two replies are unparsable and
whose third parses, the utility returns the third parse after exactly 3
calls, carrying that attempt's token counts and the template's model. -/
theorem claim_json_retry_budget_witness :
    generate_json_custom_ai (J := Unit) "m" 1
        [{ id := 1, message := "sys", model := "modelX" }]
        (fun i =>
          { text := if i == 2 then "ok" else "bad"
            usage := 9, inputTokens := 3, outputTokens := 4 })
        (fun s => if s = "ok" then some () else none) 0 =
      (.ok () 3 4 9 "modelX", 3) := by
  have h := (claim_json_retry_budget (J := Unit) "m" 1
    [{ id := 1, message := "sys", model := "modelX" }]
    (fun i =>
      { text := if i == 2 then "ok" else "bad"
        usage := 9, inputTokens := 3, outputTokens := 4 })
    (fun s => if s = "ok" then some () else none)
    { id := 1, message := "sys", model := "modelX" }
    (by decide)
    (by
      intro i hi
      by_cases h2 : i == 2 <;> simp [h2])).2.2 2 () (by omega)
    (by decide) (by decide)
  simpa using h

/-! ## Lifecycle after `end_session` (C9)

`end_session` clears `session_started`, and no operation other than
`start_session` ever sets it again; but `start_session` itself carries no
guard in the source (value_added_framework.py, lines 79-107), so calling it on
an Ended instance starts a fresh transcript and flips the instance straight
back to Active. -/

/-- Boolean success test for `Except`. -/
def exceptIsOk {ε α : Type} : Except ε α → Bool
  | .ok _ => true
  | .error _ => false

/-- On a started orchestrator, a structured call that returns a parsed result
makes `process_user_message` succeed: the guard passes, the composed payload
always validates, and the oracle's result is the ok branch. -/
theorem process_ok_with_ok_oracle (fw : ValueAddedFramework) (db : Store)
    (now : ℚ) (d : StructuredCallData) (msg : String)
    (h : fw.sessionStarted = true) :
    exceptIsOk
      ((fw.process_user_message db now (fun _ => Except.ok d) msg).2) = true := by
  have hv := validate_enhanced_always msg fw.timer now fw.currentSession
    fw.patientHistory
  simp [ValueAddedFramework.process_user_message, h, hv, exceptIsOk]

/-- The orchestrator operations other than `start_session`. -/
inductive FrameworkOp where
  | updateHistory (h : PatientHistory)
  | setSession (n : Nat)
  | process (now : ℚ) (oracle : StructuredOracle) (msg : String)
  | endSess (now : ℚ)

/-- Apply one operation to an orchestrator/store pair. -/
def applyOp (st : ValueAddedFramework × Store) (op : FrameworkOp) :
    ValueAddedFramework × Store :=
  match op with
  | .updateHistory h => (st.1.update_patient_history h, st.2)
  | .setSession n => (st.1.set_current_session n, st.2)
  | .process now oracle msg =>
    (st.1, (st.1.process_user_message st.2 now oracle msg).1)
  | .endSess now =>
    ((st.1.end_session st.2 now).1, (st.1.end_session st.2 now).2.1)

/-- No `start_session`-free operation sequence ever sets `session_started`. -/
theorem foldl_preserves_not_started (ops : List FrameworkOp) :
    ∀ fw db, fw.sessionStarted = false →
    ((ops.foldl applyOp (fw, db)).1).sessionStarted = false := by
  induction ops with
  | nil => intro fw db h; exact h
  | cons op t ih =>
    intro fw db h
    rw [List.foldl_cons]
    cases op with
    | updateHistory hh =>
      exact ih _ _ (by simpa [applyOp, ValueAddedFramework.update_patient_history] using h)
    | setSession n =>
      exact ih _ _ (by simpa [applyOp, ValueAddedFramework.set_current_session] using h)
    | process now oracle msg =>
      exact ih _ _ (by simpa [applyOp] using h)
    | endSess now =>
      exact ih _ _ (by simp [applyOp, ValueAddedFramework.end_session])

/-- C9 counterexample: the claim "no sequence of operations on an Ended
instance ever transitions it back to Active, and `process_message` never
succeeds again" is false on the code: after `end_session`, one further
`start_session` call (unguarded in the source) returns the very same instance
to Active, and a subsequent `process_message` succeeds. -/
theorem claim_ended_never_active_counterexample :
    let fw0 := ValueAddedFramework.init defaultFrameworkConfig
    let s1 := fw0.start_session [] 0 "c1"
    let e1 := s1.1.end_session s1.2.1 10
    let s2 := e1.1.start_session e1.2.1 20 "c2"
    let fw4 := s2.1.update_patient_history
      { patientId := "p", name := "N", age := 30, previousSessions := [],
        diagnosis := "d", medications := [], therapyGoals := [],
        triggers := [], strengths := [] }
    e1.1.sessionStarted = false ∧
    s2.1.sessionStarted = true ∧
    exceptIsOk (fw4.process_user_message s2.2.1 21
      (fun _ => Except.ok
        { structuredOutput := { response := "ok", psychiatristThoughts := "n" }
          usage := 7, inputTokens := 3, outputTokens := 4 }) "hi").2 = true := by
  intro fw0 s1 e1 s2 fw4
  exact ⟨rfl, rfl, process_ok_with_ok_oracle fw4 s2.2.1 21 _ "hi" rfl⟩

/-- C9 amended: once an orchestrator instance is Ended, no sequence of
operations that excludes `start_session` ever returns it to Active, and
`process_message` keeps failing with the session-not-active error; only a
renewed `start_session` call (unguarded in the source) re-activates the
instance. -/
theorem claim_ended_stays_inactive_without_restart (fw : ValueAddedFramework)
    (db : Store) (ops : List FrameworkOp) (h : fw.sessionStarted = false) :
    ((ops.foldl applyOp (fw, db)).1).sessionStarted = false ∧
    ∀ (now : ℚ) (oracle : StructuredOracle) (msg : String),
      (((ops.foldl applyOp (fw, db)).1).process_user_message
        ((ops.foldl applyOp (fw, db)).2) now oracle msg).2 =
        .error .sessionNotActive := by
  have h1 := foldl_preserves_not_started ops fw db h
  refine ⟨h1, fun now oracle msg => ?_⟩
  rw [process_not_started _ _ _ _ _ h1]

/-- Witness for the amended C9: an Ended orchestrator stays inactive across a
concrete `start_session`-free operation sequence. -/
theorem claim_ended_stays_inactive_without_restart_witness :
    (([FrameworkOp.setSession 3, FrameworkOp.endSess 5].foldl applyOp
      ((((ValueAddedFramework.init defaultFrameworkConfig).start_session [] 0
            "c1").1.end_session
          ((ValueAddedFramework.init defaultFrameworkConfig).start_session [] 0
            "c1").2.1 10).1,
       (((ValueAddedFramework.init defaultFrameworkConfig).start_session [] 0
            "c1").1.end_session
          ((ValueAddedFramework.init defaultFrameworkConfig).start_session [] 0
            "c1").2.1 10).2.1)).1).sessionStarted = false :=
  (claim_ended_stays_inactive_without_restart _ _ _ rfl).1

/-- Witness for C4 at concrete inputs: the validator accepts a concretely
composed enhanced payload, and no run of `process_user_message` on a fresh
orchestrator returns the enhancement-invalid error. -/
theorem claim_enhanced_input_always_valid_witness :
    validate_enhanced_input
      (create_enhanced_user_input "hi" ((SessionTimer.init 50).start_session 20)
        21 1 get_default_patient_history) = true ∧
    ((ValueAddedFramework.init defaultFrameworkConfig).process_user_message []
        0 (fun _ => Except.error ("down")) "hi").2 ≠
      Except.error ProcessError.enhancementInvalid :=
  ⟨(claim_enhanced_input_always_valid "hi"
      ((SessionTimer.init 50).start_session 20) 21 1 get_default_patient_history
      (ValueAddedFramework.init defaultFrameworkConfig) []
      (fun _ => Except.error ("down")) "hi" 0).2.1,
   (claim_enhanced_input_always_valid "hi"
      ((SessionTimer.init 50).start_session 20) 21 1 get_default_patient_history
      (ValueAddedFramework.init defaultFrameworkConfig) []
      (fun _ => Except.error ("down")) "hi" 0).2.2⟩

/-- Witness for C10 at concrete inputs: an unknown identifier and an existing
but empty session both render to the not-found result. -/
theorem claim_render_empty_indistinguishable_witness :
    parse_chat [] "c1" "Patient" "Therapist" = none ∧
    parse_chat [{ id := "c2", messages := [] }] "c2" "Patient" "Therapist" =
      none :=
  ⟨(claim_render_empty_indistinguishable [] "c1" "Patient" "Therapist").mpr
    (Or.inl rfl),
   (claim_render_empty_indistinguishable [{ id := "c2", messages := [] }] "c2"
      "Patient" "Therapist").mpr (Or.inr rfl)⟩
